import Mathlib

/-!
Verification model of the Universal Robots dashboard client
(`src/ur/dashboard_client.cpp`, `include/ur_client_library/ur/dashboard_client.h`).

The C++ client is embedded shallowly:
* strings are `List Char`;
* the four-element `int` arrays filled by `DashboardClient::parseSWVersion` are a
  `Ver4` record; since the C++ arrays are declared uninitialized and a failed
  stream extraction leaves its destination untouched, every function that fills
  such an array takes the array's prior (indeterminate) contents as an explicit
  argument and theorems quantify over it;
* `std::istringstream` is a record of the remaining characters plus a flag that
  records whether the stream has left the `good()` state (failbit or eofbit);
* exceptions are an explicit error type, and methods that mutate the object and
  may throw return an `Outcome` carrying the error or the value together with
  the post-state.
-/

namespace Dashboard

/-- The four-element `int` array `int result[4]` used for parsed versions. -/
structure Ver4 where
  c0 : Int
  c1 : Int
  c2 : Int
  c3 : Int
deriving DecidableEq, Repr

/-- `std::istringstream` state: remaining characters and whether the stream has
left the `good()` state (failbit or eofbit set). -/
structure IStream where
  chars : List Char
  failed : Bool
deriving DecidableEq, Repr

/-- Whitespace recognized by stream extraction's leading skip (C locale). -/
def isSpaceChar (c : Char) : Bool :=
  c == ' ' || c == '\t' || c == '\n' || c == '\r' || c == '\x0b' || c == '\x0c'

/-- Decimal digit accumulation, most significant first. -/
def digitsToNat : List Char → Nat → Nat
  | [], acc => acc
  | c :: rest, acc => digitsToNat rest (acc * 10 + (c.toNat - 48))

/-- `parser >> value` for `int`.  Faithful to C++ formatted extraction:
* if the stream is already not `good()`, the sentry fails and the destination
  keeps its previous contents `old`;
* otherwise leading whitespace is skipped; if that exhausts the stream the
  sentry sets failbit and `old` is again kept;
* otherwise `num_get` runs: with no digits (after an optional sign) it writes
  `0` and sets failbit; with digits it writes the value, setting eofbit when
  the input was consumed to its end. -/
def extractInt (s : IStream) (old : Int) : Int × IStream :=
  if s.failed then (old, s)
  else
    let cs := s.chars.dropWhile isSpaceChar
    if cs.isEmpty then (old, { chars := [], failed := true })
    else
      let neg : Bool := match cs with | '-' :: _ => true | _ => false
      let cs1 : List Char := match cs with
        | '-' :: r => r
        | '+' :: r => r
        | _ => cs
      let ds := cs1.takeWhile Char.isDigit
      let rest := cs1.dropWhile Char.isDigit
      if ds.isEmpty then (0, { chars := rest, failed := true })
      else
        let n : Int := Int.ofNat (digitsToNat ds 0)
        ((if neg then -n else n), { chars := rest, failed := rest.isEmpty })

/-- `parser.get()`: consumes one character; at end of input (or on an already
failed stream) it fails, setting failbit. -/
def istreamGet (s : IStream) : Option Char × IStream :=
  if s.failed then (none, s)
  else
    match s.chars with
    | [] => (none, { chars := [], failed := true })
    | c :: rest => (some c, { chars := rest, failed := false })

/-- `DashboardClient::parseSWVersion(int result[4], const std::string& input)`:
reads `result[0]`, then three times skips one character (the period) and reads
the next component.  `init` is the destination array's prior contents, which
survive wherever the stream extraction does not write. -/
def parseSWVersion (input : List Char) (init : Ver4) : Ver4 :=
  let p0 := extractInt { chars := input, failed := false } init.c0
  let s1 := (istreamGet p0.2).2
  let p1 := extractInt s1 init.c1
  let s2 := (istreamGet p1.2).2
  let p2 := extractInt s2 init.c2
  let s3 := (istreamGet p2.2).2
  let p3 := extractInt s3 init.c3
  ⟨p0.1, p1.1, p2.1, p3.1⟩

/-- `std::lexicographical_compare(x, x+4, y, y+4)` on the two parsed arrays:
strict lexicographic less-than, deciding at the first unequal component. -/
def lexLess (x y : Ver4) : Bool :=
  if x.c0 < y.c0 then true else if y.c0 < x.c0 then false
  else if x.c1 < y.c1 then true else if y.c1 < x.c1 then false
  else if x.c2 < y.c2 then true else if y.c2 < x.c2 then false
  else decide (x.c3 < y.c3)

/-- Strict lexicographic order on 4-tuples, written as the specification words
it ("comparison is lexicographic over the tuple"); used to compare the code's
`lexLess` against the spec's order. -/
def ver4Lt (x y : Ver4) : Prop :=
  x.c0 < y.c0 ∨ (x.c0 = y.c0 ∧ (x.c1 < y.c1 ∨ (x.c1 = y.c1 ∧
    (x.c2 < y.c2 ∨ (x.c2 = y.c2 ∧ x.c3 < y.c3)))))

instance (x y : Ver4) : Decidable (ver4Lt x y) := by
  unfold ver4Lt; infer_instance

deriving instance DecidableEq for Except

/-- Exceptions thrown by the client (and the std exceptions it can surface). -/
inductive UrError where
  | urException (msg : List Char)
  | timeoutException (timeoutSec : Int)
  | invalidArgument
  | outOfRange
deriving DecidableEq, Repr

/-- `DashboardClient::lessThanVersion(a, b, c)`: picks `a` (e-series) or `b`
(CB3) as the reference threshold, parses both strings into fresh uninitialized
arrays (`gRef`, `gC` are those arrays' prior contents), and returns the strict
`std::lexicographical_compare` result; when that comparison is false it throws
a `UrException` naming both versions instead of returning. -/
def lessThanVersion (eSeries : Bool) (a b c : List Char) (gRef gC : Ver4) :
    Except UrError Bool :=
  let ref := if eSeries = true then a else b
  let parsedRef := parseSWVersion ref gRef
  let parsedC := parseSWVersion c gC
  let ret := lexLess parsedRef parsedC
  if ret = false then
    .error (.urException (("Polyscope software version required is: ").data ++ ref
      ++ (", but actual version is: ").data ++ c))
  else
    .ok ret

/-- The dashboard client's mutable state: the connection, the cached receive
timeout, the cached version fields, plus the two pieces of the environment one
exchange observes — the bytes the server will still deliver (`input`; a read
past their end blocks until the receive timeout) and the log of byte strings
written to the transport (`written`). -/
structure ClientState where
  connected : Bool
  recvTimeout : Int
  eSeries : Bool
  polyscopeVersion : List Char
  input : List Char
  written : List (List Char)
deriving DecidableEq, Repr

/-- Result of a client method: the value or the exception thrown, in both cases
together with the post-state (C++ exceptions do not roll back mutations). -/
inductive Outcome (α : Type) where
  | ok : α → ClientState → Outcome α
  | err : UrError → ClientState → Outcome α
deriving DecidableEq, Repr

/-- Post-state of an outcome. -/
def stateOf {α : Type} : Outcome α → ClientState
  | .ok _ st => st
  | .err _ st => st

/-- Modelled from the spec: `comm::TCPSocket::write` is not under `src/`; the
spec's TransportChannel "writes raw bytes" on the open stream and a write
"attempted while not connected" fails (ConnectionError taxonomy).  A
successful write appends the bytes to the transport log. -/
def tcpWrite (st : ClientState) (text : List Char) : Bool × ClientState :=
  if st.connected then (true, { st with written := st.written ++ [text] })
  else (false, st)

/-- Modelled from the spec: `comm::TCPSocket::setReceiveTimeout` is not under
`src/`; it stores the timeout (seconds) that subsequent blocking reads use. -/
def setReceiveTimeout (st : ClientState) (sec : Int) : ClientState :=
  { st with recvTimeout := sec }

/-- `DashboardClient::send`: forwards the bytes to `TCPSocket::write`. -/
def send (st : ClientState) (text : List Char) : Bool × ClientState :=
  tcpWrite st text

/-- The byte-at-a-time loop of `DashboardClient::read`: each iteration reads
one byte and appends it, stopping after a newline.  The guard variable
`read_chars` of the source is the byte count of the *last* `TCPSocket::read`
call (1 after every successful single-byte read — its initial value 99 only
makes the first iteration run), so the loop ends only at a newline or when a
read fails; `none` is the case where the deliverable bytes are exhausted
before a newline and the next read times out. -/
def readLineBytes : List Char → Option (List Char × List Char)
  | [] => none
  | c :: rest =>
    if c = '\n' then some ([c], rest)
    else
      match readLineBytes rest with
      | none => none
      | some (line, r) => some (c :: line, r)

/-- `DashboardClient::read`: on a failed byte read (not connected, or the
buffered bytes run out and the blocking read exceeds the receive timeout) it
calls `disconnect()` and throws `TimeoutException(msg, *recv_timeout_)`;
otherwise it returns everything up to and including the newline. -/
def dashboardRead (st : ClientState) : Outcome (List Char) :=
  if st.connected = false then
    .err (.timeoutException st.recvTimeout) { st with connected := false }
  else
    match readLineBytes st.input with
    | some (line, rest) => .ok line { st with input := rest }
    | none =>
      .err (.timeoutException st.recvTimeout) { st with connected := false, input := [] }

/-- The characters trimmed by `DashboardClient::rtrim`'s default argument. -/
def isTrimChar (c : Char) : Bool :=
  c == '\t' || c == '\n' || c == '\x0b' || c == '\x0c' || c == '\r' || c == ' '

/-- `DashboardClient::rtrim`: erase from one past the last non-trim char. -/
def rtrim (s : List Char) : List Char :=
  (s.reverse.dropWhile isTrimChar).reverse

/-- `DashboardClient::sendAndReceive`: under the write mutex (the model is the
single-threaded sequential body), write the text; on write failure throw a
`UrException`; otherwise read one line and return it right-trimmed. -/
def sendAndReceive (st : ClientState) (text : List Char) : Outcome (List Char) :=
  match send st text with
  | (true, st1) =>
    match dashboardRead st1 with
    | .ok response st2 => .ok (rtrim response) st2
    | .err e st2 => .err e st2
  | (false, st1) =>
    .err (.urException (("Failed to send request to dashboard server. Are you connected to the Dashboard Server?").data)) st1

/-- The response patterns the client builds with `std::regex` and matches with
`std::regex_match` (whole-string match).  The catalog uses literal regexes
(match is string equality) and regexes of the shape `(?:X).*` (match is: `X`
is a prefix); `anyStr` is the degenerate `(?:).*`. -/
inductive Pattern where
  | exact : List Char → Pattern
  | headThenAny : List Char → Pattern
  | anyStr : Pattern
deriving DecidableEq, Repr

/-- `std::regex_match(s, std::regex(p))` for the pattern shapes of the catalog. -/
def patMatches : Pattern → List Char → Bool
  | .exact p, s => p == s
  | .headThenAny p, s => p.isPrefixOf s
  | .anyStr, _ => true

/-- The raw regex text a `Pattern` stands for (used in exception messages). -/
def patRaw : Pattern → List Char
  | .exact p => p
  | .headThenAny p => ("(?:").data ++ p ++ (").*").data
  | .anyStr => ("(?:).*").data

/-- `DashboardClient::sendRequest`: one exchange of `command + "\n"`, then the
reply must match `expected` — a mismatch throws a `UrException` carrying both;
on a match it returns `true`. -/
def sendRequest (st : ClientState) (command : List Char) (expected : Pattern) :
    Outcome Bool :=
  match sendAndReceive st (command ++ ['\n']) with
  | .err e st' => .err e st'
  | .ok response st' =>
    if patMatches expected response then .ok true st'
    else
      .err (.urException (("Expected: ").data ++ patRaw expected
        ++ (", but received: ").data ++ response)) st'

/-- `DashboardClient::sendRequestString`: like `sendRequest` but returns the
(trimmed) response itself on a match. -/
def sendRequestString (st : ClientState) (command : List Char) (expected : Pattern) :
    Outcome (List Char) :=
  match sendAndReceive st (command ++ ['\n']) with
  | .err e st' => .err e st'
  | .ok response st' =>
    if patMatches expected response then .ok response st'
    else
      .err (.urException (("Expected: ").data ++ patRaw expected
        ++ (", but received: ").data ++ response)) st'

/-- The loop of `DashboardClient::waitForReply`, indexed by how many more poll
attempts the `count < timeout` guard still allows.  The source advances
`count` by `0.1` (an IEEE double) per attempt and sleeps 100 ms between
attempts; the resulting attempt total for a given `timeout` is a fixed number,
taken here as the explicit argument.  Each attempt is one exchange of
`command + "\n"`; the first match returns `true`; exhaustion returns `false`
(a logged warning, not an exception). -/
def waitForReplyAux (command : List Char) (expected : Pattern) :
    Nat → ClientState → Outcome Bool
  | 0, st => .ok false st
  | n + 1, st =>
    match sendAndReceive st (command ++ ['\n']) with
    | .err e st' => .err e st'
    | .ok response st' =>
      if patMatches expected response then .ok true st'
      else waitForReplyAux command expected n st'

/-- Number of poll attempts `waitForReply` makes for the fixed one-second
sub-window `RETRY_EVERY_SECOND` used by `retryCommand`: accumulating the
double `0.1` from `0.0` stays strictly below `1.0` through the tenth
addition (the sum is `0x1.fffffffffffffp-1`), so the guard `count < timeout`
admits an eleventh attempt before exhausting. -/
def pollWindowIters : Nat := 11

/-- The do-while loop of `DashboardClient::retryCommand`, with `remaining` the
number of further iterations the `count < timeout` guard still allows after
the current one.  Each iteration sends the trigger (a mismatched trigger reply
throws, via `sendRequest`), then polls the status for one sub-window; a
successful sub-poll returns `true` immediately. -/
def retryCommandAux (requestCommand : List Char) (requestExpected : Pattern)
    (waitRequest : List Char) (waitExpected : Pattern) :
    Nat → ClientState → Outcome Bool
  | 0, st =>
    match sendRequest st requestCommand requestExpected with
    | .err e st' => .err e st'
    | .ok _ st1 =>
      match waitForReplyAux waitRequest waitExpected pollWindowIters st1 with
      | .err e st' => .err e st'
      | .ok true st2 => .ok true st2
      | .ok false st2 => .ok false st2
  | r + 1, st =>
    match sendRequest st requestCommand requestExpected with
    | .err e st' => .err e st'
    | .ok _ st1 =>
      match waitForReplyAux waitRequest waitExpected pollWindowIters st1 with
      | .err e st' => .err e st'
      | .ok true st2 => .ok true st2
      | .ok false st2 => retryCommandAux requestCommand requestExpected waitRequest waitExpected r st2

/-- `DashboardClient::retryCommand(requestCommand, requestExpectedResponse,
waitRequest, waitExpectedResponse, timeout)`: a do-while that runs the body
once and then while `count < timeout`, so `timeout` attempts for positive
`timeout` and still one attempt for `timeout = 0`. -/
def retryCommand (requestCommand : List Char) (requestExpected : Pattern)
    (waitRequest : List Char) (waitExpected : Pattern)
    (timeout : Nat) (st : ClientState) : Outcome Bool :=
  retryCommandAux requestCommand requestExpected waitRequest waitExpected (timeout - 1) st

/-- The power-on trigger command (named, for stable rewriting). -/
def trigCmd : List Char := ("power on").data

/-- The expected trigger acknowledgement. -/
def trigResp : List Char := ("Powering on").data

/-- The status query command. -/
def statusCmd : List Char := ("robotmode").data

/-- The status reply the power-on retry waits for. -/
def statusIdle : List Char := ("Robotmode: IDLE").data

/-- A status reply that never satisfies the power-on retry. -/
def statusOff : List Char := ("Robotmode: POWER_OFF").data

/-- One server reply block for a power-on attempt whose status never becomes
IDLE: the trigger acknowledgement followed by one non-IDLE status line per
poll attempt of the one-second sub-window. -/
def neverIdleBlock : List Char :=
  (trigResp ++ ['\n'])
    ++ (List.replicate pollWindowIters (statusOff ++ ['\n'])).flatten

/-- `n` such blocks: the byte stream of a server that acknowledges every
trigger but never reports the IDLE status. -/
def neverIdleInput : Nat → List Char
  | 0 => []
  | n + 1 => neverIdleBlock ++ neverIdleInput n

/-- The transport writes one retry attempt performs against that server:
the trigger line then one status query per poll attempt. -/
def attemptWrites : List (List Char) :=
  (trigCmd ++ ['\n']) :: List.replicate pollWindowIters (statusCmd ++ ['\n'])

/-- `DashboardClient::commandPowerOff`.  The version gate runs first; note the
guard `if (!lessThanVersion(...)) return false;` can take its `return false`
branch only if `lessThanVersion` returns `false`, which the throw inside
`lessThanVersion` prevents — the branch is kept for fidelity.  `pollIters` is
the attempt total of the 30-second default `waitForReply` window (its exact
value is irrelevant to every statement below).  `g1`, `g2` are the prior
contents of the two uninitialized parse arrays. -/
def commandPowerOff (pollIters : Nat) (g1 g2 : Ver4) (st : ClientState) :
    Outcome Bool :=
  match lessThanVersion st.eSeries (("5.0.0").data) (("3.0").data) st.polyscopeVersion g1 g2 with
  | .error e => .err e st
  | .ok sup =>
    if sup = false then .ok false st
    else
      match sendRequest st (("power off").data) (.exact (("Powering off").data)) with
      | .err e st' => .err e st'
      | .ok r1 st1 =>
        if r1 = false then .ok false st1
        else waitForReplyAux (("robotmode").data) (.exact (("Robotmode: POWER_OFF").data)) pollIters st1

/-- `DashboardClient::commandPowerOn(timeout)`: gate, then
`retryCommand("power on", "Powering on", "robotmode", "Robotmode: IDLE", timeout)`. -/
def commandPowerOn (timeout : Nat) (g1 g2 : Ver4) (st : ClientState) :
    Outcome Bool :=
  match lessThanVersion st.eSeries (("5.0.0").data) (("3.0").data) st.polyscopeVersion g1 g2 with
  | .error e => .err e st
  | .ok sup =>
    if sup = false then .ok false st
    else
      retryCommand (("power on").data) (.exact (("Powering on").data))
        (("robotmode").data) (.exact (("Robotmode: IDLE").data)) timeout st

/-- `DashboardClient::commandGenerateFlightReport`: gate, install the 180 s
receive timeout, run the single exchange, then set the timeout back to 1 s and
return — the reset is reached only when `sendRequest` returns; a throw inside
it (timeout or pattern mismatch) propagates with the override still set. -/
def commandGenerateFlightReport (reportType : List Char) (g1 g2 : Ver4)
    (st : ClientState) : Outcome Bool :=
  match lessThanVersion st.eSeries (("5.8.0").data) (("3.13").data) st.polyscopeVersion g1 g2 with
  | .error e => .err e st
  | .ok sup =>
    if sup = false then .ok false st
    else
      let st1 := setReceiveTimeout st 180
      match sendRequest st1 ((("generate flight report ").data) ++ reportType)
          (.headThenAny (("Flight Report generated with id:").data)) with
      | .err e st2 => .err e st2
      | .ok ret st2 => .ok ret (setReceiveTimeout st2 1)

/-- `DashboardClient::commandGenerateSupportFile`: as the flight report but
with a 600 s override around its single exchange. -/
def commandGenerateSupportFile (dirPath : List Char) (g1 g2 : Ver4)
    (st : ClientState) : Outcome Bool :=
  match lessThanVersion st.eSeries (("5.8.0").data) (("3.13").data) st.polyscopeVersion g1 g2 with
  | .error e => .err e st
  | .ok sup =>
    if sup = false then .ok false st
    else
      let st1 := setReceiveTimeout st 600
      match sendRequest st1 ((("generate support file ").data) ++ dirPath)
          (.headThenAny (("Completed successfully:").data)) with
      | .err e st2 => .err e st2
      | .ok ret st2 => .ok ret (setReceiveTimeout st2 1)

/-- `std::string::npos` as the value `size_t(-1)`. -/
def NPOS : Nat := 2 ^ 64 - 1

/-- `size_t` addition (modulo `2^64`), for the source's npos arithmetic. -/
def add64 (a b : Nat) : Nat := (a + b) % 2 ^ 64

/-- `size_t` subtraction (modulo `2^64`). -/
def sub64 (a b : Nat) : Nat := (a + 2 ^ 64 - b % 2 ^ 64) % 2 ^ 64

/-- Index of the first occurrence of `needle` in the list, if any. -/
def firstOccur (needle : List Char) : List Char → Option Nat
  | [] => if needle.isEmpty then some 0 else none
  | c :: rest =>
    if needle.isPrefixOf (c :: rest) then some 0
    else (firstOccur needle rest).map (fun n => n + 1)

/-- `std::string::find`: first occurrence index, or `npos`. -/
def strFind (hay needle : List Char) : Nat :=
  (firstOccur needle hay).getD NPOS

/-- `std::string::substr(pos, count)`: throws `std::out_of_range` when
`pos > size()`, else yields up to `count` characters from `pos`. -/
def substrPosLen (s : List Char) (pos count : Nat) : Except UrError (List Char) :=
  if s.length < pos then .error .outOfRange
  else .ok ((s.drop pos).take count)

/-- `std::stoi`: skip whitespace, optional sign, decimal digits; throws
`std::invalid_argument` when no digits were consumed.  (The `int` overflow
throw cannot trigger on the one-character inputs the client feeds it.) -/
def stoiModel (s : List Char) : Except UrError Int :=
  let cs := s.dropWhile isSpaceChar
  let neg : Bool := match cs with | '-' :: _ => true | _ => false
  let cs1 : List Char := match cs with
    | '-' :: r => r
    | '+' :: r => r
    | _ => cs
  let ds := cs1.takeWhile Char.isDigit
  if ds.isEmpty then .error .invalidArgument
  else
    let n : Int := Int.ofNat (digitsToNat ds 0)
    .ok (if neg then -n else n)

/-- The member assignment `polyscope_version_ = polyscope_version.substr(
polyscope_version.find(" ") + 1, polyscope_version.find(" (") -
polyscope_version.find(" ") - 1)` with `size_t` arithmetic. -/
def extractVersionField (resp : List Char) : Except UrError (List Char) :=
  let i1 := strFind resp ((" ").data)
  let i2 := strFind resp ((" (").data)
  substrPosLen resp (add64 i1 1) (sub64 (sub64 i2 i1) 1)

/-- `DashboardClient::commandPolyscopeVersion`: one exchange of
`PolyscopeVersion` expecting `(?:URSoftware ).*`; the full (trimmed) response
is the out-parameter, the text between the first `" "` and the first `" ("`
is cached as `polyscope_version_`, and `e_series_` is set from
`stoi(polyscope_version_.substr(0, 1)) >= 5` — only the first character. -/
def commandPolyscopeVersion (st : ClientState) : Outcome (Bool × List Char) :=
  let expected := Pattern.headThenAny (("URSoftware ").data)
  match sendRequestString st (("PolyscopeVersion").data) expected with
  | .err e st' => .err e st'
  | .ok resp st1 =>
    match extractVersionField resp with
    | .error e => .err e st1
    | .ok pv =>
      match substrPosLen pv 0 1 with
      | .error e => .err e { st1 with polyscopeVersion := pv }
      | .ok first =>
        match stoiModel first with
        | .error e => .err e { st1 with polyscopeVersion := pv }
        | .ok v =>
          .ok (patMatches expected resp, resp)
            { st1 with polyscopeVersion := pv, eSeries := decide (5 ≤ v) }

/-- `DashboardClient::disconnect`: `TCPSocket::close()`. -/
def disconnect (st : ClientState) : ClientState :=
  { st with connected := false }

/-- `DashboardClient::connect`.  A client already in the Connected state logs
and returns `false` untouched.  Otherwise `TCPSocket::setup` runs — modelled
from the spec ("opens a TCP stream ...; on connect, the server unilaterally
sends one greeting line"): the environment input `setupOk` tells whether it
succeeds, success entering the Connected state with the greeting already among
the deliverable bytes.  On success the greeting is read (and logged).  In all
cases the receive timeout is then set to 1 s and `commandPolyscopeVersion` is
issued unconditionally, after which `ret_val` is returned. -/
def connect (setupOk : Bool) (st : ClientState) : Outcome Bool :=
  if st.connected then .ok false st
  else
    match (if setupOk then
            match dashboardRead { st with connected := true } with
            | .err e st' => .err e st'
            | .ok _greeting st' => .ok true st'
          else .ok false st : Outcome Bool) with
    | .err e st' => .err e st'
    | .ok retVal st1 =>
      let st2 := setReceiveTimeout st1 1
      match commandPolyscopeVersion st2 with
      | .err e st' => .err e st'
      | .ok _ st3 => .ok retVal st3

/-- A connected client with fresh logs, about to receive `inp`; the version
fields are as after construction (nothing cached). -/
def mkState (inp : List Char) : ClientState :=
  { connected := true, recvTimeout := 1, eSeries := false,
    polyscopeVersion := [], input := inp, written := [] }

/-- A connected e-series client with cached version `5.9.4`, about to receive
`inp`. -/
def mkStateE (inp : List Char) : ClientState :=
  { connected := true, recvTimeout := 1, eSeries := true,
    polyscopeVersion := ("5.9.4").data, input := inp, written := [] }

/-- Decimal rendering of a number below 100 (for building version replies). -/
def twoDigitChars (m : Nat) : List Char :=
  if m < 10 then [Char.ofNat (48 + m)]
  else [Char.ofNat (48 + m / 10), Char.ofNat (48 + m % 10)]

/-- A well-formed `PolyscopeVersion` reply line whose version major is `m`. -/
def mkVersionResp (m : Nat) : List Char :=
  ("URSoftware ").data ++ twoDigitChars m ++ (".9.4 (Build 1)").data

/-- The `e_series_` field after running the version query on `st`. -/
def eSeriesAfter (st : ClientState) : Bool :=
  (stateOf (commandPolyscopeVersion st)).eSeries

/-- The `polyscope_version_` field after running the version query on `st`. -/
def polyVersionAfter (st : ClientState) : List Char :=
  (stateOf (commandPolyscopeVersion st)).polyscopeVersion

end Dashboard

section ScratchChecks
open Dashboard

example : parseSWVersion ("3.9").data ⟨7, 7, 7, 7⟩ = ⟨3, 9, 7, 7⟩ := by decide
example : parseSWVersion ("3.10").data ⟨5, 5, 5, 5⟩ = ⟨3, 10, 5, 5⟩ := by decide
example : parseSWVersion ("10. Only available on e-series robot").data ⟨1, 2, 3, 4⟩
    = ⟨10, 0, 3, 4⟩ := by decide
example : parseSWVersion ("").data ⟨9, 9, 9, 9⟩ = ⟨9, 9, 9, 9⟩ := by decide
example : parseSWVersion ("5.0.0").data ⟨8, 8, 8, 8⟩ = ⟨5, 0, 0, 8⟩ := by decide
example : lexLess ⟨3, 9, 1000, 1000⟩ ⟨3, 10, -1000, -1000⟩ = true := by decide
example : lessThanVersion true ("5.0.0").data ("3.0").data ("5.0.0").data
    ⟨0, 0, 0, 0⟩ ⟨0, 0, 0, 0⟩
    = .error (.urException (("Polyscope software version required is: 5.0.0, but actual version is: 5.0.0").data)) := by
  decide

example :
    polyVersionAfter (mkState (("URSoftware 5.9.4 (Build 1)\n").data)) = ("5.9.4").data
    ∧ eSeriesAfter (mkState (("URSoftware 5.9.4 (Build 1)\n").data)) = true := by
  decide

example :
    polyVersionAfter (mkState (("URSoftware 10.1.0 (Build 1)\n").data)) = ("10.1.0").data
    ∧ eSeriesAfter (mkState (("URSoftware 10.1.0 (Build 1)\n").data)) = false := by
  decide

example :
    (stateOf (commandGenerateFlightReport (("x").data) ⟨0, 0, 0, 0⟩ ⟨0, 0, 0, 0⟩
      (mkStateE (("ERROR\n").data)))).recvTimeout = 180 := by
  decide

example :
    (stateOf (commandGenerateFlightReport (("x").data) ⟨0, 0, 0, 0⟩ ⟨0, 0, 0, 0⟩
      (mkStateE (("Flight Report generated with id: 7\n").data)))).recvTimeout = 1 := by
  decide

end ScratchChecks

namespace Dashboard

/-! ### Shared lemmas about the read loop and one successful exchange -/

theorem readLineBytes_append (pre rest : List Char) (h : '\n' ∉ pre) :
    readLineBytes (pre ++ '\n' :: rest) = some (pre ++ ['\n'], rest) := by
  induction pre with
  | nil => simp [readLineBytes]
  | cons c cs ih =>
    have hc : ¬ c = '\n' := fun hh => h (by simp [hh])
    have hcs : '\n' ∉ cs := fun hm => h (List.mem_cons_of_mem _ hm)
    simp [readLineBytes, hc, ih hcs]

theorem readLineBytes_none (l : List Char) (h : '\n' ∉ l) : readLineBytes l = none := by
  induction l with
  | nil => rfl
  | cons c cs ih =>
    have hc : ¬ c = '\n' := fun hh => h (by simp [hh])
    have hcs : '\n' ∉ cs := fun hm => h (List.mem_cons_of_mem _ hm)
    simp [readLineBytes, hc, ih hcs]

theorem rtrim_append_newline (pre : List Char) : rtrim (pre ++ ['\n']) = rtrim pre := by
  have h : isTrimChar '\n' = true := by decide
  simp [rtrim, List.reverse_append, List.dropWhile_cons, h]

theorem sendAndReceive_line (rt : Int) (es : Bool) (pv : List Char)
    (w : List (List Char)) (cmd pre rest : List Char) (h : '\n' ∉ pre) :
    sendAndReceive ⟨true, rt, es, pv, pre ++ '\n' :: rest, w⟩ cmd
      = .ok (rtrim pre) ⟨true, rt, es, pv, rest, w ++ [cmd]⟩ := by
  unfold sendAndReceive send tcpWrite dashboardRead
  simp [readLineBytes_append pre rest h, rtrim_append_newline]

theorem sendRequest_line (rt : Int) (es : Bool) (pv : List Char)
    (w : List (List Char)) (cmd pre rest : List Char) (p : Pattern)
    (h : '\n' ∉ pre) (hm : patMatches p (rtrim pre) = true) :
    sendRequest ⟨true, rt, es, pv, pre ++ '\n' :: rest, w⟩ cmd p
      = .ok true ⟨true, rt, es, pv, rest, w ++ [cmd ++ ['\n']]⟩ := by
  unfold sendRequest
  rw [sendAndReceive_line rt es pv w (cmd ++ ['\n']) pre rest h]
  simp [hm]

/-! ### The boolean comparison against the mathematical lexicographic order -/

theorem lexLess_iff (x y : Ver4) : lexLess x y = true ↔ ver4Lt x y := by
  unfold lexLess ver4Lt
  split_ifs with h1 h2 h3 h4 h5 h6 <;> simp <;> omega

/-- C5 (corrected), counterexample: the claim has `parseSWVersion` turning
`"3.9"` into `(3, 9, 0, 0)`; in fact the extraction never writes the two
absent components, so the destination array keeps its prior contents there
(here 7s), and the parse of `"3.9"` is `(3, 9, 7, 7)`, not `(3, 9, 0, 0)`. -/
theorem c5_counterexample :
    parseSWVersion (("3.9").data) ⟨7, 7, 7, 7⟩ = ⟨3, 9, 7, 7⟩
    ∧ ¬ parseSWVersion (("3.9").data) ⟨7, 7, 7, 7⟩ = ⟨3, 9, 0, 0⟩ := by
  decide

/-- C5 (corrected): `parseSWVersion` writes the components present in the
string — `(3, 9, ·, ·)` for `"3.9"` and `(3, 10, ·, ·)` for `"3.10"` — and
leaves the absent trailing components at the destination arrays' prior
contents; the lexicographic comparison is decided at the second component
(9 < 10), so `"3.9" < "3.10"` holds numerically for every such prior
contents, never reaching the unwritten slots. -/
theorem c5_amended (g1 g2 : Ver4) :
    parseSWVersion (("3.9").data) g1 = ⟨3, 9, g1.c2, g1.c3⟩
    ∧ parseSWVersion (("3.10").data) g2 = ⟨3, 10, g2.c2, g2.c3⟩
    ∧ lexLess (parseSWVersion (("3.9").data) g1) (parseSWVersion (("3.10").data) g2) = true
    ∧ ver4Lt (parseSWVersion (("3.9").data) g1) (parseSWVersion (("3.10").data) g2) := by
  have h1 : parseSWVersion (("3.9").data) g1 = ⟨3, 9, g1.c2, g1.c3⟩ := rfl
  have h2 : parseSWVersion (("3.10").data) g2 = ⟨3, 10, g2.c2, g2.c3⟩ := rfl
  refine ⟨h1, h2, rfl, ?_⟩
  rw [h1, h2]
  exact Or.inr ⟨rfl, Or.inl (by norm_num : (9 : Int) < 10)⟩

/-- C1 (corrected), counterexample: with the e-series threshold `"5.0.0"` and
the cached version exactly `"5.0.0"` (the parse arrays' unwritten last slots
both holding 0), the gate does not report the command supported — the strict
`std::lexicographical_compare` is false on equal tuples, and the gate then
throws a `UrException` instead of passing. -/
theorem c1_counterexample :
    lessThanVersion true (("5.0.0").data) (("3.0").data) (("5.0.0").data) ⟨0, 0, 0, 0⟩ ⟨0, 0, 0, 0⟩
      ≠ .ok true
    ∧ lessThanVersion true (("5.0.0").data) (("3.0").data) (("5.0.0").data) ⟨0, 0, 0, 0⟩ ⟨0, 0, 0, 0⟩
      = .error (.urException (("Polyscope software version required is: 5.0.0, but actual version is: 5.0.0").data)) := by
  decide

/-- C1 (corrected): for every command spec `(a, b)` and cached version `c`,
the gate reports the command supported (returns `true`) iff the parsed
variant-appropriate threshold tuple is *strictly* less than the parsed cached
tuple under lexicographic comparison; whenever it is not strictly less — in
particular when the tuples are equal — the gate throws a `UrException`
naming both versions rather than reporting the command supported. -/
theorem c1_amended (es : Bool) (a b c : List Char) (g1 g2 : Ver4) :
    (lessThanVersion es a b c g1 g2 = .ok true
      ↔ ver4Lt (parseSWVersion (if es = true then a else b) g1) (parseSWVersion c g2))
    ∧ (¬ ver4Lt (parseSWVersion (if es = true then a else b) g1) (parseSWVersion c g2) →
        lessThanVersion es a b c g1 g2
          = .error (.urException ((("Polyscope software version required is: ").data)
              ++ (if es = true then a else b)
              ++ ((", but actual version is: ").data) ++ c))) := by
  have hL := lexLess_iff (parseSWVersion (if es = true then a else b) g1) (parseSWVersion c g2)
  cases h : lexLess (parseSWVersion (if es = true then a else b) g1) (parseSWVersion c g2) with
  | false =>
    rw [h] at hL
    simp only [Bool.false_eq_true, false_iff] at hL
    refine ⟨⟨fun hok => ?_, fun hlt => absurd hlt hL⟩, fun _ => ?_⟩
    · simp [lessThanVersion, h] at hok
    · simp [lessThanVersion, h]
  | true =>
    rw [h] at hL
    simp only [true_iff] at hL
    refine ⟨?_, fun hnlt => absurd hL hnlt⟩
    simp [lessThanVersion, h, hL]

/-- C1 (corrected), witness: the CB3 threshold `"3.0"` against the cached
version `"3.0"` (equal tuples, unwritten slots at 0) makes the gate throw. -/
theorem c1_witness :
    lessThanVersion false (("5.0.0").data) (("3.0").data) (("3.0").data) ⟨0, 0, 0, 0⟩ ⟨0, 0, 0, 0⟩
      = .error (.urException (("Polyscope software version required is: 3.0, but actual version is: 3.0").data)) :=
  (c1_amended false (("5.0.0").data) (("3.0").data) (("3.0").data) ⟨0, 0, 0, 0⟩ ⟨0, 0, 0, 0⟩).2
    (by decide)

/-- C2 (code bug): a version-gated operation invoked with a cached version
below its threshold (here `commandPowerOff` on a CB3 client caching `"2.0"`,
threshold `"3.0"`) performs zero transport writes — the post-state equals the
pre-state, `written` included — but it does not return `false`: the gate's
throw makes the wrapper's `return false` branch unreachable and a
`UrException` propagates to the caller.  The same holds with nothing cached
(`polyscope_version_` empty, `e_series_` arbitrary, the parse array's prior
contents all zero): the gate throws rather than failing closed with `false`. -/
theorem c2_gate_throws (pollIters : Nat) (g1 g2 : Ver4) (rt : Int)
    (inp : List Char) (w : List (List Char)) :
    commandPowerOff pollIters g1 g2 ⟨true, rt, false, ("2.0").data, inp, w⟩
      = .err (.urException (("Polyscope software version required is: 3.0, but actual version is: 2.0").data))
          ⟨true, rt, false, ("2.0").data, inp, w⟩
    ∧ ∀ es : Bool, ∃ m : List Char,
        commandPowerOff pollIters g1 ⟨0, 0, 0, 0⟩ ⟨true, rt, es, [], inp, w⟩
          = .err (.urException m) ⟨true, rt, es, [], inp, w⟩ := by
  constructor
  · rfl
  · intro es
    cases es
    · exact ⟨_, rfl⟩
    · exact ⟨_, rfl⟩

/-- C7 (corrected), counterexample: there is no constant bounding the bytes one
reply read buffers — for every candidate bound `N`, a server that sends `N + 1`
non-newline bytes before the newline makes the read loop consume and buffer
them all (its guard is the last read's byte count, not a running maximum). -/
theorem c7_counterexample :
    ¬ ∃ N : Nat, ∀ inp line rest : List Char,
        readLineBytes inp = some (line, rest) → line.length ≤ N := by
  rintro ⟨N, h⟩
  have hnl : '\n' ∉ List.replicate (N + 1) 'a' := fun hm =>
    absurd (List.eq_of_mem_replicate hm) (by decide)
  have hlen : (List.replicate (N + 1) 'a' ++ ['\n']).length ≤ N :=
    h _ _ _ (readLineBytes_append (List.replicate (N + 1) 'a') [] hnl)
  simp only [List.length_append, List.length_replicate, List.length_cons,
    List.length_nil] at hlen
  omega

/-- C7 (corrected): a single reply read consumes bytes one at a time exactly up
to and including the first newline — there is no fixed maximum byte count; the
loop ends only at the newline or at a failed (timed-out) byte read. -/
theorem c7_amended (st : ClientState) (pre rest : List Char)
    (hc : st.connected = true) (hpre : '\n' ∉ pre)
    (hin : st.input = pre ++ '\n' :: rest) :
    dashboardRead st = .ok (pre ++ ['\n']) { st with input := rest } := by
  simp [dashboardRead, hc, hin, readLineBytes_append pre rest hpre]

/-- C7 witness: reading a concrete three-byte line. -/
theorem c7_witness :
    dashboardRead (mkStateE (("abc\n").data))
      = .ok ((("abc").data) ++ ['\n']) { mkStateE (("abc\n").data) with input := [] } :=
  c7_amended (mkStateE (("abc\n").data)) (("abc").data) [] (by decide) (by decide)
    (by decide)

/-- C8 (confirmed): when the buffered bytes hold no newline — the read stalls
until the receive timeout — `read()` disconnects (the post-state is no longer
connected) before throwing, and the thrown `TimeoutException` carries the
configured receive timeout of the state it ran in. -/
theorem c8_timeout_disconnects (st : ClientState) (hc : st.connected = true)
    (h : '\n' ∉ st.input) :
    dashboardRead st
      = .err (.timeoutException st.recvTimeout) { st with connected := false, input := [] } := by
  simp [dashboardRead, hc, readLineBytes_none st.input h]

/-- C8 witness: a stalled read on a concrete client with the 1 s timeout. -/
theorem c8_witness :
    dashboardRead (mkStateE (("Robotmode").data))
      = .err (.timeoutException 1)
          { mkStateE (("Robotmode").data) with connected := false, input := [] } :=
  c8_timeout_disconnects (mkStateE (("Robotmode").data)) (by decide) (by decide)

/-- C3 (corrected), counterexample: on the reply `URSoftware 10.1.0 (Build 1)`
the cached version string parses to major 10 (which is ≥ 5), yet the cached
variant is CB3 (`e_series_ = false`), because the classification reads only
the first character `'1'` of the version string. -/
theorem c3_counterexample :
    (parseSWVersion (polyVersionAfter (mkState (("URSoftware 10.1.0 (Build 1)\n").data))) ⟨0, 0, 0, 0⟩).c0 = 10
    ∧ 5 ≤ (parseSWVersion (polyVersionAfter (mkState (("URSoftware 10.1.0 (Build 1)\n").data))) ⟨0, 0, 0, 0⟩).c0
    ∧ eSeriesAfter (mkState (("URSoftware 10.1.0 (Build 1)\n").data)) = false := by
  decide

/-- C3 (corrected): for every well-formed version reply with major below 100,
the cached variant is ESeries exactly when the *first decimal digit* of the
major is at least 5 — for one-digit majors that is the claimed `major ≥ 5`
rule, but a major of 10 yields CB3 (first digit 1), not ESeries. -/
theorem c3_amended :
    ∀ m : Nat, m < 100 →
      eSeriesAfter (mkState (mkVersionResp m ++ ['\n']))
        = decide (5 ≤ (if m < 10 then m else m / 10))
      ∧ polyVersionAfter (mkState (mkVersionResp m ++ ['\n']))
        = twoDigitChars m ++ ((".9.4").data) := by
  decide

/-! ### Receive-timeout bookkeeping across one exchange -/

theorem dashboardRead_recvTimeout (st : ClientState) :
    (stateOf (dashboardRead st)).recvTimeout = st.recvTimeout := by
  unfold dashboardRead
  split
  · rfl
  · split
    · rfl
    · rfl

theorem sendAndReceive_recvTimeout (st : ClientState) (t : List Char) :
    (stateOf (sendAndReceive st t)).recvTimeout = st.recvTimeout := by
  unfold sendAndReceive send tcpWrite dashboardRead
  by_cases hc : st.connected = true
  · cases hr : readLineBytes st.input with
    | none => simp [hc, hr, stateOf]
    | some p => cases p with | mk line rest => simp [hc, hr, stateOf]
  · simp [hc, stateOf]

theorem sendRequest_recvTimeout (st : ClientState) (cmd : List Char) (p : Pattern) :
    (stateOf (sendRequest st cmd p)).recvTimeout = st.recvTimeout := by
  unfold sendRequest
  have h := sendAndReceive_recvTimeout st (cmd ++ ['\n'])
  cases hs : sendAndReceive st (cmd ++ ['\n']) with
  | ok v s2 =>
    rw [hs] at h
    simp only [stateOf] at h
    by_cases hm : patMatches p v = true <;> simp [hm, stateOf, h]
  | err e s2 =>
    rw [hs] at h
    simpa [stateOf] using h

theorem lessThanVersion_ok_true (es : Bool) (a b c : List Char) (g1 g2 : Ver4)
    (r : Bool) (h : lessThanVersion es a b c g1 g2 = .ok r) : r = true := by
  cases hL : lexLess (parseSWVersion (if es = true then a else b) g1) (parseSWVersion c g2) with
  | false => simp [lessThanVersion, hL] at h
  | true => simp [lessThanVersion, hL] at h; exact h

/-- C4 (corrected), counterexample: a flight-report attempt whose single
exchange fails by pattern mismatch (the server answers `ERROR`) throws with
the 180-second override still installed — the restore line is never reached,
so the next ordinary command would not run with the 1-second timeout. -/
theorem c4_counterexample :
    commandGenerateFlightReport (("x").data) ⟨0, 0, 0, 0⟩ ⟨0, 0, 0, 0⟩
        (mkStateE (("ERROR\n").data))
      = .err (.urException (("Expected: (?:Flight Report generated with id:).*, but received: ERROR").data))
          ⟨true, 180, true, ("5.9.4").data, [], [("generate flight report x\n").data]⟩
    ∧ (180 : Int) ≠ 1 := by
  decide

/-- C4 (corrected): the two diagnostic commands restore the 1-second receive
timeout exactly on the returning (non-throwing) exit path — whenever they
return a value, the post-state timeout is 1 — while on a throwing exit either
the exchange had already installed the override (the post-state keeps 180 s
for the flight report, 600 s for the support file) or the version gate threw
before any timeout change (post-state untouched). -/
theorem c4_amended (rtp dp : List Char) (g1 g2 : Ver4) (st : ClientState) :
    (∀ bv st', commandGenerateFlightReport rtp g1 g2 st = .ok bv st' →
      st'.recvTimeout = 1)
    ∧ (∀ e st', commandGenerateFlightReport rtp g1 g2 st = .err e st' →
      st'.recvTimeout = 180 ∨ st' = st)
    ∧ (∀ bv st', commandGenerateSupportFile dp g1 g2 st = .ok bv st' →
      st'.recvTimeout = 1)
    ∧ (∀ e st', commandGenerateSupportFile dp g1 g2 st = .err e st' →
      st'.recvTimeout = 600 ∨ st' = st) := by
  refine ⟨?_, ?_, ?_, ?_⟩
  · intro bv st' hcmd
    unfold commandGenerateFlightReport at hcmd
    cases hg : lessThanVersion st.eSeries (("5.8.0").data) (("3.13").data) st.polyscopeVersion g1 g2 with
    | error e => rw [hg] at hcmd; simp at hcmd
    | ok sup =>
      have hsup := lessThanVersion_ok_true _ _ _ _ _ _ _ hg
      subst hsup
      rw [hg] at hcmd
      simp only [Bool.true_eq_false, if_false, reduceCtorEq] at hcmd
      cases hs : sendRequest (setReceiveTimeout st 180)
          ((("generate flight report ").data) ++ rtp)
          (.headThenAny (("Flight Report generated with id:").data)) with
      | err e s2 => rw [hs] at hcmd; simp at hcmd
      | ok ret s2 =>
        rw [hs] at hcmd
        simp only [Outcome.ok.injEq] at hcmd
        rw [← hcmd.2]
        rfl
  · intro e st' hcmd
    unfold commandGenerateFlightReport at hcmd
    cases hg : lessThanVersion st.eSeries (("5.8.0").data) (("3.13").data) st.polyscopeVersion g1 g2 with
    | error e2 =>
      rw [hg] at hcmd
      simp only [Outcome.err.injEq] at hcmd
      exact Or.inr hcmd.2.symm
    | ok sup =>
      have hsup := lessThanVersion_ok_true _ _ _ _ _ _ _ hg
      subst hsup
      rw [hg] at hcmd
      simp only [Bool.true_eq_false, if_false, reduceCtorEq] at hcmd
      have hrt := sendRequest_recvTimeout (setReceiveTimeout st 180)
        ((("generate flight report ").data) ++ rtp)
        (.headThenAny (("Flight Report generated with id:").data))
      cases hs : sendRequest (setReceiveTimeout st 180)
          ((("generate flight report ").data) ++ rtp)
          (.headThenAny (("Flight Report generated with id:").data)) with
      | err e2 s2 =>
        rw [hs] at hcmd
        rw [hs] at hrt
        simp only [Outcome.err.injEq] at hcmd
        simp only [stateOf] at hrt
        rw [← hcmd.2]
        exact Or.inl hrt
      | ok ret s2 => rw [hs] at hcmd; simp at hcmd
  · intro bv st' hcmd
    unfold commandGenerateSupportFile at hcmd
    cases hg : lessThanVersion st.eSeries (("5.8.0").data) (("3.13").data) st.polyscopeVersion g1 g2 with
    | error e => rw [hg] at hcmd; simp at hcmd
    | ok sup =>
      have hsup := lessThanVersion_ok_true _ _ _ _ _ _ _ hg
      subst hsup
      rw [hg] at hcmd
      simp only [Bool.true_eq_false, if_false, reduceCtorEq] at hcmd
      cases hs : sendRequest (setReceiveTimeout st 600)
          ((("generate support file ").data) ++ dp)
          (.headThenAny (("Completed successfully:").data)) with
      | err e s2 => rw [hs] at hcmd; simp at hcmd
      | ok ret s2 =>
        rw [hs] at hcmd
        simp only [Outcome.ok.injEq] at hcmd
        rw [← hcmd.2]
        rfl
  · intro e st' hcmd
    unfold commandGenerateSupportFile at hcmd
    cases hg : lessThanVersion st.eSeries (("5.8.0").data) (("3.13").data) st.polyscopeVersion g1 g2 with
    | error e2 =>
      rw [hg] at hcmd
      simp only [Outcome.err.injEq] at hcmd
      exact Or.inr hcmd.2.symm
    | ok sup =>
      have hsup := lessThanVersion_ok_true _ _ _ _ _ _ _ hg
      subst hsup
      rw [hg] at hcmd
      simp only [Bool.true_eq_false, if_false, reduceCtorEq] at hcmd
      have hrt := sendRequest_recvTimeout (setReceiveTimeout st 600)
        ((("generate support file ").data) ++ dp)
        (.headThenAny (("Completed successfully:").data))
      cases hs : sendRequest (setReceiveTimeout st 600)
          ((("generate support file ").data) ++ dp)
          (.headThenAny (("Completed successfully:").data)) with
      | err e2 s2 =>
        rw [hs] at hcmd
        rw [hs] at hrt
        simp only [Outcome.err.injEq] at hcmd
        simp only [stateOf] at hrt
        rw [← hcmd.2]
        exact Or.inl hrt
      | ok ret s2 => rw [hs] at hcmd; simp at hcmd

/-- C4 witness: a successful flight-report exchange ends with the timeout
restored to 1 second. -/
theorem c4_witness :
    commandGenerateFlightReport (("x").data) ⟨0, 0, 0, 0⟩ ⟨0, 0, 0, 0⟩
        (mkStateE (("Flight Report generated with id: 7\n").data))
      = .ok true ⟨true, 1, true, ("5.9.4").data, [], [("generate flight report x\n").data]⟩
    ∧ (⟨true, 1, true, ("5.9.4").data, [], [("generate flight report x\n").data]⟩ : ClientState).recvTimeout = 1 :=
  ⟨by decide,
    (c4_amended (("x").data) (("y").data) ⟨0, 0, 0, 0⟩ ⟨0, 0, 0, 0⟩
      (mkStateE (("Flight Report generated with id: 7\n").data))).1 true
      ⟨true, 1, true, ("5.9.4").data, [], [("generate flight report x\n").data]⟩ (by decide)⟩

/-! ### The retry loop against a server that never reports IDLE -/

theorem waitForReplyAux_step (k : Nat) (rt : Int) (es : Bool) (pv : List Char)
    (w : List (List Char)) (rest cmd pre : List Char) (pat : Pattern)
    (h : '\n' ∉ pre) :
    waitForReplyAux cmd pat (k + 1) ⟨true, rt, es, pv, pre ++ '\n' :: rest, w⟩
      = if patMatches pat (rtrim pre) = true
          then .ok true ⟨true, rt, es, pv, rest, w ++ [cmd ++ ['\n']]⟩
          else waitForReplyAux cmd pat k ⟨true, rt, es, pv, rest, w ++ [cmd ++ ['\n']]⟩ := by
  simp only [waitForReplyAux]
  rw [sendAndReceive_line rt es pv w (cmd ++ ['\n']) pre rest h]

theorem retryCommandAux_zero_step (rt : Int) (es : Bool) (pv : List Char)
    (w : List (List Char)) (rest trig pre scmd : List Char) (tpat spat : Pattern)
    (h : '\n' ∉ pre) (hm : patMatches tpat (rtrim pre) = true) :
    retryCommandAux trig tpat scmd spat 0 ⟨true, rt, es, pv, pre ++ '\n' :: rest, w⟩
      = match waitForReplyAux scmd spat pollWindowIters
          ⟨true, rt, es, pv, rest, w ++ [trig ++ ['\n']]⟩ with
        | .err e st' => .err e st'
        | .ok true st2 => .ok true st2
        | .ok false st2 => .ok false st2 := by
  simp only [retryCommandAux]
  rw [sendRequest_line rt es pv w trig pre rest tpat h hm]

theorem retryCommandAux_succ_step (r : Nat) (rt : Int) (es : Bool) (pv : List Char)
    (w : List (List Char)) (rest trig pre scmd : List Char) (tpat spat : Pattern)
    (h : '\n' ∉ pre) (hm : patMatches tpat (rtrim pre) = true) :
    retryCommandAux trig tpat scmd spat (r + 1) ⟨true, rt, es, pv, pre ++ '\n' :: rest, w⟩
      = match waitForReplyAux scmd spat pollWindowIters
          ⟨true, rt, es, pv, rest, w ++ [trig ++ ['\n']]⟩ with
        | .err e st' => .err e st'
        | .ok true st2 => .ok true st2
        | .ok false st2 => retryCommandAux trig tpat scmd spat r st2 := by
  simp only [retryCommandAux]
  rw [sendRequest_line rt es pv w trig pre rest tpat h hm]

theorem waitForReplyAux_noIdle (k : Nat) (rt : Int) (es : Bool) (pv : List Char)
    (rest : List Char) (w : List (List Char)) :
    waitForReplyAux statusCmd (.exact statusIdle) k
      ⟨true, rt, es, pv, (List.replicate k (statusOff ++ ['\n'])).flatten ++ rest, w⟩
    = .ok false ⟨true, rt, es, pv, rest, w ++ List.replicate k (statusCmd ++ ['\n'])⟩ := by
  induction k generalizing w with
  | zero => simp [waitForReplyAux]
  | succ k ih =>
    have hblock : (List.replicate (k + 1) (statusOff ++ ['\n'])).flatten ++ rest
        = statusOff ++ '\n' :: ((List.replicate k (statusOff ++ ['\n'])).flatten ++ rest) := by
      rw [List.replicate_succ, List.flatten_cons, List.append_assoc, List.append_assoc,
        List.singleton_append]
    rw [hblock]
    rw [waitForReplyAux_step k rt es pv w
      ((List.replicate k (statusOff ++ ['\n'])).flatten ++ rest) statusCmd statusOff
      (.exact statusIdle) (by decide)]
    rw [if_neg (show ¬ (patMatches (Pattern.exact statusIdle) (rtrim statusOff) = true) from by decide)]
    rw [ih (w ++ [statusCmd ++ ['\n']])]
    rw [List.append_assoc, List.singleton_append, ← List.replicate_succ]

theorem retryCommandAux_neverIdle (r : Nat) (rt : Int) (es : Bool) (pv : List Char)
    (rest : List Char) (w : List (List Char)) :
    retryCommandAux trigCmd (.exact trigResp) statusCmd (.exact statusIdle) r
      ⟨true, rt, es, pv, neverIdleInput (r + 1) ++ rest, w⟩
    = .ok false ⟨true, rt, es, pv, rest,
        w ++ (List.replicate (r + 1) attemptWrites).flatten⟩ := by
  have hni : ∀ n, neverIdleInput (n + 1) ++ rest
      = trigResp ++ '\n' :: ((List.replicate pollWindowIters (statusOff ++ ['\n'])).flatten
          ++ (neverIdleInput n ++ rest)) := by
    intro n
    show (neverIdleBlock ++ neverIdleInput n) ++ rest = _
    simp only [neverIdleBlock, List.append_assoc, List.singleton_append, List.cons_append,
      List.nil_append]
  induction r generalizing w with
  | zero =>
    rw [hni 0]
    rw [show neverIdleInput 0 ++ rest = rest from rfl]
    rw [retryCommandAux_zero_step rt es pv w
      ((List.replicate pollWindowIters (statusOff ++ ['\n'])).flatten ++ rest)
      trigCmd trigResp statusCmd (.exact trigResp) (.exact statusIdle)
      (by decide) (by decide)]
    rw [waitForReplyAux_noIdle pollWindowIters rt es pv rest (w ++ [trigCmd ++ ['\n']])]
    simp [attemptWrites, List.replicate_succ, List.flatten_cons, List.append_assoc,
      List.singleton_append]
  | succ r ih =>
    rw [hni (r + 1)]
    rw [retryCommandAux_succ_step r rt es pv w
      ((List.replicate pollWindowIters (statusOff ++ ['\n'])).flatten
        ++ (neverIdleInput (r + 1) ++ rest))
      trigCmd trigResp statusCmd (.exact trigResp) (.exact statusIdle)
      (by decide) (by decide)]
    rw [waitForReplyAux_noIdle pollWindowIters rt es pv (neverIdleInput (r + 1) ++ rest)
      (w ++ [trigCmd ++ ['\n']])]
    show retryCommandAux trigCmd (.exact trigResp) statusCmd (.exact statusIdle) r
      ⟨true, rt, es, pv, neverIdleInput (r + 1) ++ rest,
        (w ++ [trigCmd ++ ['\n']]) ++ List.replicate pollWindowIters (statusCmd ++ ['\n'])⟩ = _
    rw [ih ((w ++ [trigCmd ++ ['\n']]) ++ List.replicate pollWindowIters (statusCmd ++ ['\n']))]
    simp [attemptWrites, List.replicate_succ, List.flatten_cons, List.append_assoc,
      List.singleton_append]

theorem count_flatten_replicate_attemptWrites (m : Nat) :
    ((List.replicate m attemptWrites).flatten).count (trigCmd ++ ['\n']) = m := by
  induction m with
  | zero => rfl
  | succ k ih =>
    rw [List.replicate_succ, List.flatten_cons, List.count_append, ih,
      show attemptWrites.count (trigCmd ++ ['\n']) = 1 from by decide]
    omega

/-- C6 (corrected), counterexample: `retryCommand` is a do-while, so with
`maxAttempts = 0` (and a server that acknowledges the trigger but never
reports IDLE) the trigger line is still written once — more than the
`maxAttempts` bound the claim states for every value. -/
theorem c6_counterexample :
    ¬ ((stateOf (retryCommand trigCmd (.exact trigResp) statusCmd (.exact statusIdle) 0
        (mkStateE (neverIdleInput 1)))).written.count (trigCmd ++ ['\n']) ≤ 0) := by
  decide

/-- C6 (corrected): against a server that acknowledges every trigger and never
reports the IDLE status, `retryCommand` with `maxAttempts = n` sends the
trigger exactly `max 1 n` times — `n` times for positive `n` (so exactly 3
for `maxAttempts = 3`), but still once for `n = 0`, because the loop is a
do-while — and returns `false` as a plain negative result. -/
theorem c6_amended (n : Nat) :
    retryCommand trigCmd (.exact trigResp) statusCmd (.exact statusIdle) n
      (mkStateE (neverIdleInput (max 1 n)))
    = .ok false ⟨true, 1, true, ("5.9.4").data, [],
        (List.replicate (max 1 n) attemptWrites).flatten⟩
    ∧ ((List.replicate (max 1 n) attemptWrites).flatten).count (trigCmd ++ ['\n'])
        = max 1 n := by
  refine ⟨?_, count_flatten_replicate_attemptWrites (max 1 n)⟩
  have hmax : max 1 n = (n - 1) + 1 := by omega
  rw [hmax]
  have h := retryCommandAux_neverIdle (n - 1) 1 true (("5.9.4").data) [] []
  rw [List.append_nil] at h
  rw [List.nil_append] at h
  unfold retryCommand
  exact h

/-- C3 witness: major 57 — first digit 5 — classifies as ESeries. -/
theorem c3_witness :
    eSeriesAfter (mkState (mkVersionResp 57 ++ ['\n']))
      = decide (5 ≤ (if 57 < 10 then 57 else 57 / 10))
    ∧ polyVersionAfter (mkState (mkVersionResp 57 ++ ['\n']))
      = twoDigitChars 57 ++ ((".9.4").data) :=
  c3_amended 57 (by decide)

/-- C10 (confirmed): `connect()` returns `false` — with the state untouched,
so without any exchange — exactly when the socket is already connected.  When
the socket is not connected and the TCP setup fails, `connect` still sets the
1-second receive timeout and unconditionally issues the `PolyscopeVersion`
query; its `send` fails on the unconnected socket, so a `UrException`
propagates and the `return ret_val` (= `false`) line is never reached: the
only `.ok false` outcome of `connect` is the already-connected early return. -/
theorem c10_connect (b : Bool) (st : ClientState) :
    (st.connected = true → connect b st = .ok false st)
    ∧ (st.connected = false →
        connect false st
          = .err (.urException (("Failed to send request to dashboard server. Are you connected to the Dashboard Server?").data))
              { st with recvTimeout := 1 })
    ∧ (∀ st' : ClientState, connect b st = .ok false st' → st.connected = true) := by
  have hnc : ∀ (s : ClientState) (t : List Char), s.connected = false →
      sendAndReceive s t
        = .err (.urException (("Failed to send request to dashboard server. Are you connected to the Dashboard Server?").data)) s := by
    intro s t hcs
    simp [sendAndReceive, send, tcpWrite, hcs]
  have hfail : st.connected = false →
      connect false st
        = .err (.urException (("Failed to send request to dashboard server. Are you connected to the Dashboard Server?").data))
            { st with recvTimeout := 1 } := by
    intro hc
    simp [connect, hc, commandPolyscopeVersion, sendRequestString, setReceiveTimeout, hnc]
  refine ⟨fun hc => by simp [connect, hc], hfail, ?_⟩
  intro st' hok
  by_cases hc : st.connected = true
  · exact hc
  · have hcf : st.connected = false := by
      cases h2 : st.connected with
      | false => rfl
      | true => exact absurd h2 hc
    cases b with
    | false =>
      rw [hfail hcf] at hok
      simp at hok
    | true =>
      cases hd : dashboardRead { st with connected := true } with
      | err e s1 => simp [connect, hcf, hd] at hok
      | ok g s1 =>
        cases hp : commandPolyscopeVersion (setReceiveTimeout s1 1) with
        | err e s3 => simp [connect, hcf, hd, hp] at hok
        | ok v s3 => simp [connect, hcf, hd, hp] at hok

/-- C10 witness: a failed TCP setup on a fresh (disconnected) client ends in
the send-failure exception with the 1-second timeout installed, not in a
`false` return. -/
theorem c10_witness :
    connect false (⟨false, 0, false, [], [], []⟩ : ClientState)
      = .err (.urException (("Failed to send request to dashboard server. Are you connected to the Dashboard Server?").data))
          { (⟨false, 0, false, [], [], []⟩ : ClientState) with recvTimeout := 1 } :=
  (c10_connect false ⟨false, 0, false, [], [], []⟩).2.1 rfl

end Dashboard
